import Mathlib

/-!
Shallow embedding of the authentication module of the eyemax-server
repository (`src/routes/auth.js`, served under `/api/auth` by
`src/index.js`), together with proofs of the specified properties.

The module consists of:
* `upsertUser` — the SQL upsert
  `INSERT INTO users (email, password_hash) VALUES ($1, $2)
   ON CONFLICT (email) DO UPDATE SET email = EXCLUDED.email
   RETURNING id, email`,
  modelled over a list of rows with a unique constraint on non-null
  emails (Postgres `ON CONFLICT (email)` never fires on NULL);
* `generateToken` — `jwt.sign({id, email}, JWT_SECRET, {expiresIn: '30d'})`,
  with the HS256 signature modelled symbolically as the signing secret and
  `jwt.verify` checking the signature, then expiry (`TokenExpiredError`
  when the clock reaches `exp`);
* the two route handlers `POST /google` and `POST /apple`, modelled as
  functions of the request body, the provider-verification oracle, and a
  flag telling whether the storage backend is reachable (in the source any
  exception thrown inside the handler body, including a storage failure
  inside `upsertUser`, is caught by the single `try/catch` and surfaced
  as a 401 "Invalid ... token" response).
-/

namespace EyeMax

/-- A row of the `users` table: `id` (storage-generated), `email`
(unique natural key, NULL-able in SQL hence `Option`), and
`password_hash`, the column the auth module reuses to store the
provider tag (`"google"` / `"apple"`). -/
structure UserRow where
  id : Nat
  email : Option String
  password_hash : String
deriving DecidableEq, Repr

/-- The `users` table. -/
abbrev DB := List UserRow

/-- Storage-generated id for a fresh insert: one past the largest id in
the table (a shallow model of a serial primary key). -/
def freshId (db : DB) : Nat :=
  db.foldr (fun r acc => max r.id acc) 0 + 1

/-- Number of rows whose `email` column equals `e`. -/
def countEmail (db : DB) (e : Option String) : Nat :=
  (db.filter (fun r => r.email == e)).length

/-- `upsertUser(email, provider)` from `src/routes/auth.js`:
`INSERT INTO users (email, password_hash) VALUES ($1, $2)
 ON CONFLICT (email) DO UPDATE SET email = EXCLUDED.email
 RETURNING id, email`.
On a NULL email the `ON CONFLICT (email)` clause never fires (SQL NULLs
never compare equal), so a fresh row is inserted.  On a conflict the
`DO UPDATE` clause rewrites only `email` — to the very value it already
holds — leaving `id` and `password_hash` untouched, and returns the
existing row's `id, email`. -/
def upsertUser (db : DB) (email : Option String) (provider : String) :
    DB × (Nat × Option String) :=
  match email with
  | none =>
      let r : UserRow := ⟨freshId db, none, provider⟩
      (db ++ [r], (r.id, r.email))
  | some e =>
      match db.find? (fun q => q.email == some e) with
      | some r =>
          (db.map (fun q => if q.email == some e then { q with email := some e } else q),
           (r.id, r.email))
      | none =>
          let r : UserRow := ⟨freshId db, some e, provider⟩
          (db ++ [r], (r.id, r.email))

/-- `const JWT_SECRET = process.env.JWT_SECRET || 'supersecretbackup'`:
the signing secret as a function of the (optional) environment variable;
JavaScript `||` also falls through on the empty string. -/
def JWT_SECRET (env : Option String) : String :=
  match env with
  | none => "supersecretbackup"
  | some s => if s = "" then "supersecretbackup" else s

/-- The claims object `{ id: user.id, email: user.email }` passed to
`jwt.sign`. -/
structure Claims where
  id : Nat
  email : Option String
deriving DecidableEq, Repr

/-- A signed JWT, shallowly: the payload (claims, issued-at `iat`,
expiry `exp`) plus the HMAC signature, modelled symbolically by the
secret that produced it. -/
structure JwtToken where
  claims : Claims
  iat : Nat
  exp : Nat
  sig : String
deriving DecidableEq, Repr

/-- `expiresIn: '30d'` in seconds. -/
def thirtyDays : Nat := 30 * 24 * 60 * 60

/-- `jwt.sign(payload, secret, {expiresIn: '30d'})`: sets `iat` to the
current clock and `exp` to thirty days later, signs with `secret`. -/
def jwtSign (c : Claims) (secret : String) (now : Nat) : JwtToken :=
  { claims := c, iat := now, exp := now + thirtyDays, sig := secret }

/-- Outcomes of `jwt.verify`: signature mismatch (`JsonWebTokenError`)
or expiry (`TokenExpiredError`, raised when the clock is at or past
`exp`). -/
inductive VerifyError where
  | badSignature
  | expired
deriving DecidableEq, Repr

/-- `jwt.verify(token, secret)` at clock `now`: checks the signature,
then fails with `TokenExpiredError` when `exp ≤ now`, otherwise returns
the decoded claims. -/
def jwtVerify (t : JwtToken) (secret : String) (now : Nat) :
    Except VerifyError Claims :=
  if t.sig = secret then
    if t.exp ≤ now then .error .expired else .ok t.claims
  else .error .badSignature

/-- `generateToken(user)` from `src/routes/auth.js`:
`jwt.sign({id: user.id, email: user.email}, JWT_SECRET, {expiresIn: '30d'})`. -/
def generateToken (user : Nat × Option String) (secret : String) (now : Nat) :
    JwtToken :=
  jwtSign { id := user.1, email := user.2 } secret now

/-- The payload `googleClient.verifyIdToken` hands back on success; the
handler reads `payload.email`. -/
structure GooglePayload where
  email : Option String
deriving DecidableEq, Repr

/-- The decoded Apple token: the handler reads `decoded.email` and
`decoded.email_verified` (each a JS value that may be absent). -/
structure ApplePayload where
  email : Option String
  email_verified : Option String
deriving DecidableEq, Repr

/-- `const email = decoded.email || decoded.email_verified` from the
Apple handler: JavaScript `||` falls through when `decoded.email` is
absent or the empty string. -/
def appleEmail (decoded : ApplePayload) : Option String :=
  match decoded.email with
  | some e => if e = "" then decoded.email_verified else some e
  | none => decoded.email_verified

/-- The observable part of a handler response: HTTP status and the JSON
body fields the routes emit (`ok`, `error`, `token`, `user`); absent
fields are `none`. -/
structure HttpResponse where
  status : Nat
  ok : Option Bool
  error : Option String
  token : Option JwtToken
  user : Option (Nat × Option String)
deriving DecidableEq, Repr

/-- `res.status(400).json({ error: 'Missing idToken' })`. -/
def missingIdTokenResp : HttpResponse :=
  { status := 400, ok := none, error := some "Missing idToken",
    token := none, user := none }

/-- `res.status(401).json({ ok: false, error: 'Invalid <provider> token' })` —
the shape produced by the catch-all in each handler. -/
def invalidTokenResp (provider : String) : HttpResponse :=
  { status := 401, ok := some false,
    error := some ("Invalid " ++ provider ++ " token"),
    token := none, user := none }

/-- `router.post('/google')` from `src/routes/auth.js`, as a function of
the request body's `idToken` field (`none` = absent), the Google
verification oracle `gv` (`none` = `verifyIdToken` threw: bad signature,
wrong audience or expired), storage reachability `dbOk` (when false,
`upsertUser` throws and the `catch` answers 401), the current table,
signing secret and clock.  Returns the response and the table after the
request.  `if (!idToken)` is JS truthiness: absent or empty string. -/
def postGoogle (gv : String → Option GooglePayload) (dbOk : Bool) (db : DB)
    (idToken : Option String) (secret : String) (now : Nat) :
    HttpResponse × DB :=
  match idToken with
  | none => (missingIdTokenResp, db)
  | some tok =>
      if tok = "" then (missingIdTokenResp, db)
      else
        match gv tok with
        | none => (invalidTokenResp "Google", db)
        | some payload =>
            if dbOk then
              let res := upsertUser db payload.email "google"
              let t := generateToken res.2 secret now
              ({ status := 200, ok := some true, error := none,
                 token := some t, user := some res.2 }, res.1)
            else (invalidTokenResp "Google", db)

/-- `router.post('/apple')` from `src/routes/auth.js`, analogous to
`postGoogle`: `av` models `appleSigninAuth.verifyIdToken` (`none` = the
verification threw), and the email fed to `upsertUser` is
`decoded.email || decoded.email_verified`. -/
def postApple (av : String → Option ApplePayload) (dbOk : Bool) (db : DB)
    (idToken : Option String) (secret : String) (now : Nat) :
    HttpResponse × DB :=
  match idToken with
  | none => (missingIdTokenResp, db)
  | some tok =>
      if tok = "" then (missingIdTokenResp, db)
      else
        match av tok with
        | none => (invalidTokenResp "Apple", db)
        | some decoded =>
            if dbOk then
              let res := upsertUser db (appleEmail decoded) "apple"
              let t := generateToken res.2 secret now
              ({ status := 200, ok := some true, error := none,
                 token := some t, user := some res.2 }, res.1)
            else (invalidTokenResp "Apple", db)

/-- Sequential execution of a batch of sign-in upserts for one email,
one provider tag per call, returning the final table and every call's
result.  Each `upsertUser` is a single atomic storage operation
(`ON CONFLICT` is Postgres's native conflict resolution), so a set of
concurrent calls is observationally some serialization — this function
ranges over all of them via the order of `provs`. -/
def runUpserts (db : DB) (email : String) (provs : List String) :
    DB × List (Nat × Option String) :=
  match provs with
  | [] => (db, [])
  | p :: ps =>
      let r := upsertUser db (some email) p
      let rest := runUpserts r.1 email ps
      (rest.1, r.2 :: rest.2)

/-! ### Helper lemmas about the upsert -/

theorem update_self (q : UserRow) (e : String) (h : q.email = some e) :
    { q with email := some e } = q := by
  cases q with
  | mk i em ph =>
      simp only at h
      simp [h]

theorem update_map_id (db : DB) (e : String) :
    db.map (fun q => if q.email == some e then { q with email := some e } else q)
      = db := by
  induction db with
  | nil => rfl
  | cons q qs ih =>
      simp only [List.map_cons, ih]
      by_cases h : q.email = some e
      · simp [h, update_self q e h]
      · simp [h]

theorem upsertUser_found (db : DB) (e p : String) (r : UserRow)
    (h : db.find? (fun q => q.email == some e) = some r) :
    upsertUser db (some e) p = (db, (r.id, r.email)) := by
  simp only [upsertUser, h, update_map_id]

theorem upsertUser_notfound (db : DB) (e p : String)
    (h : db.find? (fun q => q.email == some e) = none) :
    upsertUser db (some e) p
      = (db ++ [⟨freshId db, some e, p⟩], (freshId db, some e)) := by
  simp only [upsertUser, h]

theorem countEmail_append (db : DB) (r : UserRow) (e : Option String) :
    countEmail (db ++ [r]) e
      = countEmail db e + (if r.email == e then 1 else 0) := by
  by_cases h : r.email == e <;>
    simp [countEmail, List.filter_append, h]

theorem countEmail_of_find?_none (db : DB) (e : String)
    (h : db.find? (fun q => q.email == some e) = none) :
    countEmail db (some e) = 0 := by
  rw [countEmail, List.length_eq_zero, List.filter_eq_nil_iff]
  intro a ha
  exact List.find?_eq_none.mp h a ha

theorem countEmail_pos_of_find? (db : DB) (e : String) (r : UserRow)
    (h : db.find? (fun q => q.email == some e) = some r) :
    1 ≤ countEmail db (some e) := by
  have hp : (r.email == some e) = true := (List.find?_eq_some.mp h).1
  have hmem : r ∈ db.filter (fun q => q.email == some e) :=
    List.mem_filter.mpr ⟨List.mem_of_find?_eq_some h, hp⟩
  exact List.length_pos_of_mem hmem

theorem find?_append_inserted (db : DB) (e : String) (r : UserRow)
    (h : db.find? (fun q => q.email == some e) = none)
    (hr : r.email = some e) :
    (db ++ [r]).find? (fun q => q.email == some e) = some r := by
  simp [List.find?_append, h, hr]

/-- After an upsert for `some e` the returned row is findable: the table
contains exactly what the claims need to chain a second call. -/
theorem runUpserts_found (db : DB) (e : String) (r : UserRow)
    (h : db.find? (fun q => q.email == some e) = some r) :
    ∀ provs : List String,
      runUpserts db e provs = (db, provs.map (fun _ => (r.id, r.email)))
  | [] => rfl
  | p :: ps => by
      simp only [runUpserts, upsertUser_found db e p r h,
        runUpserts_found db e r h ps, List.map_cons]

/-! ### Claims about the upsert (C3, C6, C9) -/

/-- C3 counterexample: the claim says an upsert on an existing email
updates the row's provider tag to the provider of the latest sign-in.
Concretely: after a `"google"` sign-in creates the row for
`"a@b.com"`, an `"apple"` upsert on the same email leaves the stored
tag (`password_hash` column) at `"google"`, not `"apple"` — the
`ON CONFLICT` clause only rewrites `email` to its own value. -/
theorem C3_counterexample :
    (upsertUser (upsertUser [] (some "a@b.com") "google").1
        (some "a@b.com") "apple").1
      = [⟨1, some "a@b.com", "google"⟩] ∧ ("google" : String) ≠ "apple" := by
  exact ⟨rfl, by decide⟩

/-- C3 (amended): an upsert on an email that already has a User row
leaves the table entirely unchanged — in particular the row's `id` and
its provider tag (which therefore keeps the provider of the FIRST
sign-in) — and returns the existing row's `id, email`. -/
theorem C3_upsert_existing_unchanged (db : DB) (e p : String) (r : UserRow)
    (h : db.find? (fun q => q.email == some e) = some r) :
    (upsertUser db (some e) p).1 = db ∧
    (upsertUser db (some e) p).2 = (r.id, r.email) := by
  simp [upsertUser_found db e p r h]

/-- C3 witness: the amended theorem applied at a concrete table. -/
theorem C3_upsert_existing_unchanged_witness :
    ([⟨1, some "a@b.com", "google"⟩] : DB).find?
        (fun q => q.email == some "a@b.com") = some ⟨1, some "a@b.com", "google"⟩ ∧
    (upsertUser [⟨1, some "a@b.com", "google"⟩] (some "a@b.com") "apple").1
      = [⟨1, some "a@b.com", "google"⟩] :=
  ⟨rfl, (C3_upsert_existing_unchanged [⟨1, some "a@b.com", "google"⟩]
      "a@b.com" "apple" ⟨1, some "a@b.com", "google"⟩ rfl).1⟩

/-- C6: under the unique-email invariant, upserting the same email twice
(with any two provider tags, i.e. any two valid tokens asserting that
email) leaves exactly one User row for that email, and both calls
return the same `id`. -/
theorem C6_upsert_idempotent (db : DB) (e p1 p2 : String)
    (h : countEmail db (some e) ≤ 1) :
    countEmail (upsertUser (upsertUser db (some e) p1).1 (some e) p2).1
        (some e) = 1 ∧
    (upsertUser (upsertUser db (some e) p1).1 (some e) p2).2.1
      = (upsertUser db (some e) p1).2.1 := by
  cases hf : db.find? (fun q => q.email == some e) with
  | some r =>
      simp only [upsertUser_found db e p1 r hf, upsertUser_found db e p2 r hf]
      exact ⟨le_antisymm h (countEmail_pos_of_find? db e r hf), trivial⟩
  | none =>
      have h1 := upsertUser_notfound db e p1 hf
      have hfind := find?_append_inserted db e ⟨freshId db, some e, p1⟩ hf rfl
      have h2 := upsertUser_found (db ++ [⟨freshId db, some e, p1⟩]) e p2
        ⟨freshId db, some e, p1⟩ hfind
      simp only [h1, h2]
      refine ⟨?_, trivial⟩
      rw [countEmail_append, countEmail_of_find?_none db e hf]
      simp

/-- C6 witness: both upserts on an empty table, concrete email. -/
theorem C6_upsert_idempotent_witness :
    countEmail [] (some "a@b.com") ≤ 1 ∧
    countEmail (upsertUser (upsertUser [] (some "a@b.com") "google").1
        (some "a@b.com") "apple").1 (some "a@b.com") = 1 :=
  ⟨by decide, (C6_upsert_idempotent [] "a@b.com" "google" "apple" (by decide)).1⟩

/-- C9: N sign-in upserts for the same new email — each one the atomic
`ON CONFLICT` operation, so an arbitrary serialization of N concurrent
calls — create exactly one User row for that email; every call succeeds
(the model's upsert is total: the conflict path merges, no duplicate-key
error escapes) and every call returns the same `id`. -/
theorem C9_concurrent_upserts (db : DB) (e : String) (provs : List String)
    (h0 : countEmail db (some e) = 0) (hne : provs ≠ []) :
    countEmail (runUpserts db e provs).1 (some e) = 1 ∧
    ∀ u ∈ (runUpserts db e provs).2, u = (freshId db, some e) := by
  have hf : db.find? (fun q => q.email == some e) = none := by
    cases hfind : db.find? (fun q => q.email == some e) with
    | none => rfl
    | some r =>
        have := countEmail_pos_of_find? db e r hfind
        omega
  cases provs with
  | nil => exact absurd rfl hne
  | cons p ps =>
      have h1 := upsertUser_notfound db e p hf
      have hfind := find?_append_inserted db e ⟨freshId db, some e, p⟩ hf rfl
      have h2 := runUpserts_found (db ++ [⟨freshId db, some e, p⟩]) e
        ⟨freshId db, some e, p⟩ hfind ps
      simp only [runUpserts, h1, h2]
      constructor
      · rw [countEmail_append, countEmail_of_find?_none db e hf]
        simp
      · intro u hu
        simp only [List.mem_cons, List.mem_map] at hu
        rcases hu with h | ⟨a, _, h⟩ <;> simp [← h]

/-- C9 witness: three serialized first-time sign-ins for one new email. -/
theorem C9_concurrent_upserts_witness :
    countEmail [] (some "a@b.com") = 0 ∧
    (["google", "apple", "google"] : List String) ≠ [] ∧
    countEmail (runUpserts [] "a@b.com" ["google", "apple", "google"]).1
        (some "a@b.com") = 1 :=
  ⟨rfl, by decide,
    (C9_concurrent_upserts [] "a@b.com" ["google", "apple", "google"]
      rfl (by decide)).1⟩

/-! ### Claims about the route handlers (C1, C4, C5, C10) -/

/-- C1 counterexample: the claim says a sign-in whose storage upsert
fails aborts with HTTP 500.  Concretely — valid Google token, storage
unreachable — the handler's catch-all answers with status 401, not
500 (the single `try/catch` maps every thrown error, including storage
failures, to the 401 "Invalid Google token" shape). -/
theorem C1_counterexample :
    (postGoogle (fun _ => some ⟨some "a@b.com"⟩) false []
        (some "tok") "secret" 0).1.status = 401 ∧
    ¬ (postGoogle (fun _ => some ⟨some "a@b.com"⟩) false []
        (some "tok") "secret" 0).1.status = 500 := by
  decide

/-- C1 (amended): for every sign-in request in which the storage upsert
fails, the operation aborts with the generic HTTP 401 invalid-token
response (not 500): no session token is issued and the table is
unchanged, on both endpoints. -/
theorem C1_upsert_failure_aborts (gv : String → Option GooglePayload)
    (av : String → Option ApplePayload) (db : DB)
    (tok secret : String) (now : Nat) (hne : tok ≠ "")
    (hg : (gv tok).isSome = true) (ha : (av tok).isSome = true) :
    postGoogle gv false db (some tok) secret now
      = (invalidTokenResp "Google", db) ∧
    postApple av false db (some tok) secret now
      = (invalidTokenResp "Apple", db) := by
  cases hgv : gv tok with
  | none => rw [hgv] at hg; simp at hg
  | some payload =>
      cases hav : av tok with
      | none => rw [hav] at ha; simp at ha
      | some decoded => simp [postGoogle, postApple, hne, hgv, hav]

/-- C1 witness: the amended theorem at a concrete request. -/
theorem C1_upsert_failure_aborts_witness :
    (("tok" : String) ≠ "") ∧
    postGoogle (fun _ => some ⟨some "a@b.com"⟩) false []
        (some "tok") "secret" 0 = (invalidTokenResp "Google", []) :=
  ⟨by decide,
    (C1_upsert_failure_aborts (fun _ => some ⟨some "a@b.com"⟩)
      (fun _ => some ⟨some "a@b.com", some "true"⟩) [] "tok" "secret" 0
      (by decide) rfl rfl).1⟩

/-- C4: when provider verification throws (wrong audience, expired, or
bad signature — modelled by the oracle returning `none`), the request
answers 401 with the invalid-token shape and the table is returned
unchanged: `upsertUser` and `generateToken` are never reached, so no
User row is created or modified. -/
theorem C4_invalid_assertion (gv : String → Option GooglePayload)
    (av : String → Option ApplePayload) (dbOk : Bool) (db : DB)
    (tok secret : String) (now : Nat) (hne : tok ≠ "")
    (hg : gv tok = none) (ha : av tok = none) :
    postGoogle gv dbOk db (some tok) secret now
      = (invalidTokenResp "Google", db) ∧
    postApple av dbOk db (some tok) secret now
      = (invalidTokenResp "Apple", db) := by
  simp [postGoogle, postApple, hne, hg, ha]

/-- C4 witness: a token every verifier rejects, concrete table. -/
theorem C4_invalid_assertion_witness :
    (("bad" : String) ≠ "") ∧
    postGoogle (fun _ => none) true [⟨1, some "a@b.com", "google"⟩]
        (some "bad") "secret" 0
      = (invalidTokenResp "Google", [⟨1, some "a@b.com", "google"⟩]) :=
  ⟨by decide,
    (C4_invalid_assertion (fun _ => none) (fun _ => none) true
      [⟨1, some "a@b.com", "google"⟩] "bad" "secret" 0
      (by decide) rfl rfl).1⟩

/-- C5: a request body without the `idToken` field answers 400 with
`{ error: 'Missing idToken' }` on both endpoints, for every
verification oracle and every storage state — the response and table
do not depend on them, i.e. neither the verifier nor storage is
consulted — and the table is unchanged. -/
theorem C5_missing_idtoken (gv : String → Option GooglePayload)
    (av : String → Option ApplePayload) (dbOk : Bool) (db : DB)
    (secret : String) (now : Nat) :
    postGoogle gv dbOk db none secret now = (missingIdTokenResp, db) ∧
    postApple av dbOk db none secret now = (missingIdTokenResp, db) ∧
    missingIdTokenResp.status = 400 ∧
    missingIdTokenResp.error = some "Missing idToken" :=
  ⟨rfl, rfl, rfl, rfl⟩

/-- C10: an `idToken` field that is present but the empty string is
JS-falsy, so `if (!idToken)` treats it like a missing field: both
endpoints answer 400 `{ error: 'Missing idToken' }` without consulting
the verifier or storage. -/
theorem C10_empty_idtoken (gv : String → Option GooglePayload)
    (av : String → Option ApplePayload) (dbOk : Bool) (db : DB)
    (secret : String) (now : Nat) :
    postGoogle gv dbOk db (some "") secret now = (missingIdTokenResp, db) ∧
    postApple av dbOk db (some "") secret now = (missingIdTokenResp, db) := by
  constructor <;> simp [postGoogle, postApple]

/-! ### Claims about the session token (C2, C7, C8) -/

/-- C2: the code contradicts the claim.  With the `JWT_SECRET`
environment variable unset, `JWT_SECRET` evaluates to the hard-coded
backup value `'supersecretbackup'`, and `generateToken` happily issues
a session token signed with that backup secret — issuance does not
fail, and the token verifies against the backup value. -/
theorem C2_backup_secret_used :
    JWT_SECRET none = "supersecretbackup" ∧
    (generateToken (7, some "a@b.com") (JWT_SECRET none) 0).sig
      = "supersecretbackup" ∧
    jwtVerify (generateToken (7, some "a@b.com") (JWT_SECRET none) 0)
        "supersecretbackup" 0 = .ok ⟨7, some "a@b.com"⟩ :=
  ⟨rfl, rfl, rfl⟩

/-- C7: a token issued by `generateToken` for `{id, email}` carries an
expiry of exactly 30 days after issuance, verifies against the signing
secret at any clock before that expiry — decoding back to the same
`id` and `email` — and fails with the expiry error at any clock past
the 30-day window. -/
theorem C7_token_roundtrip (uid : Nat) (email : Option String)
    (secret : String) (now t : Nat) :
    (generateToken (uid, email) secret now).exp = now + thirtyDays ∧
    (t < now + thirtyDays →
      jwtVerify (generateToken (uid, email) secret now) secret t
        = .ok ⟨uid, email⟩) ∧
    (now + thirtyDays ≤ t →
      jwtVerify (generateToken (uid, email) secret now) secret t
        = .error .expired) := by
  refine ⟨rfl, ?_, ?_⟩
  · intro ht
    have hlt : ¬ (now + thirtyDays ≤ t) := by omega
    simp [generateToken, jwtSign, jwtVerify, hlt]
  · intro ht
    simp [generateToken, jwtSign, jwtVerify, ht]

/-- C7 witness: user `{id: 7, email: "a@b.com"}`, issuance at clock 0,
verification at clock 5 (inside the window) and at clock 2592001 (past
the 30-day window of 2592000 seconds). -/
theorem C7_token_roundtrip_witness :
    (5 < 0 + thirtyDays ∧
      jwtVerify (generateToken (7, some "a@b.com") "s" 0) "s" 5
        = .ok ⟨7, some "a@b.com"⟩) ∧
    (0 + thirtyDays ≤ 2592001 ∧
      jwtVerify (generateToken (7, some "a@b.com") "s" 0) "s" 2592001
        = .error .expired) :=
  ⟨⟨by decide, (C7_token_roundtrip 7 (some "a@b.com") "s" 0 5).2.1 (by decide)⟩,
   ⟨by decide, (C7_token_roundtrip 7 (some "a@b.com") "s" 0 2592001).2.2 (by decide)⟩⟩

/-- C8: for a decoded Apple token, the email handed onward is the
`email` claim when it is present (and nonempty), and falls back to the
`email_verified` claim when `email` is absent — the behaviour of
`decoded.email || decoded.email_verified`. -/
theorem C8_apple_email_fallback (decoded : ApplePayload) (e : String) :
    (decoded.email = some e → e ≠ "" → appleEmail decoded = some e) ∧
    (decoded.email = none → appleEmail decoded = decoded.email_verified) := by
  constructor
  · intro h hne
    simp [appleEmail, h, hne]
  · intro h
    simp [appleEmail, h]

/-- C8 witness: a payload with an email claim, and one without. -/
theorem C8_apple_email_fallback_witness :
    appleEmail ⟨some "x@y.com", some "true"⟩ = some "x@y.com" ∧
    appleEmail ⟨none, some "true"⟩ = some "true" :=
  ⟨(C8_apple_email_fallback ⟨some "x@y.com", some "true"⟩ "x@y.com").1
      rfl (by decide),
   (C8_apple_email_fallback ⟨none, some "true"⟩ "x@y.com").2 rfl⟩

end EyeMax
